import Mathlib

/-!
Verification of the planning-validation-execution pipeline of the Max
desktop-agent repository against its natural-language specification.

The Python sources are shallowly embedded: Python dicts become association
lists over a JSON value type `JVal`, Python strings become `String` (with
character-level helpers that mirror `str.lower`, `str.strip`, prefix tests
and whitespace splitting, written so that they evaluate inside the kernel),
and code paths that raise exceptions become `Option`-valued functions
(`none` marks the exception).  Each definition is translated from the named
source function; module namespaces mirror the Python modules:

  * `Config`        — src/config.py
  * `Schema`        — src/core/ai/schema.py (validate_action_plan, post-parse)
  * `PlanValidator` — src/core/ai/plan_validator.py
  * `Validator`     — src/core/safety/validator.py
  * `Dispatcher`    — src/core/execution/dispatcher.py (execute_plan)
  * `Provider`      — src/core/ai/provider_factory.py (FallbackProvider)
  * `Rules`         — src/core/ai/rule_parser.py (parse_simple_command)
  * `Browser`       — src/core/execution/browser_control.py (navigate, URL step)
  * `Orchestrator`  — src/core/orchestrator.py (plan-obtaining phase)
-/

/-- Lower-case an ASCII letter; other characters are unchanged
(character-level model of Python `str.lower` for the ASCII range used by
the repository's tables). -/
def lowerChar (c : Char) : Char :=
  if 65 ≤ c.toNat ∧ c.toNat ≤ 90 then Char.ofNat (c.toNat + 32) else c

/-- Model of Python `str.lower` (ASCII). -/
def strToLower (s : String) : String := (s.toList.map lowerChar).asString

/-- Whitespace characters stripped by Python `str.strip` / split by `\s`. -/
def isSpaceChar (c : Char) : Bool :=
  c == ' ' || c == '\t' || c == '\n' || c == '\r' || c.toNat == 11 || c.toNat == 12

/-- Model of Python `str.strip`. -/
def strStrip (s : String) : String :=
  (((s.toList.dropWhile isSpaceChar).reverse.dropWhile isSpaceChar).reverse).asString

/-- Model of Python `str.startswith` (and of `re.match` on the literal
prefix patterns the repository uses). -/
def strStartsWith (s p : String) : Bool := p.toList.isPrefixOf s.toList

/-- Does `p` occur as a contiguous run inside `l`?  Helper for the Python
substring test `p in s`. -/
def listIsInfix : List Char → List Char → Bool
  | p, [] => p.isEmpty
  | p, l@(_ :: t) => if p.isPrefixOf l then true else listIsInfix p t

/-- Model of the Python substring test `p in s`. -/
def strContainsSub (s p : String) : Bool := listIsInfix p.toList s.toList

/-- Accumulator-style splitting of a character list into words. -/
def wordsAux : List Char → List Char → List String
  | [], acc => if acc.isEmpty then [] else [acc.reverse.asString]
  | c :: t, acc =>
    if isSpaceChar c then
      if acc.isEmpty then wordsAux t [] else acc.reverse.asString :: wordsAux t []
    else wordsAux t (c :: acc)

/-- Whitespace-separated words of a string; `\s+` in the anchored regular
expressions of rule_parser.py separates exactly these tokens. -/
def strWords (s : String) : List String := wordsAux s.toList []

/-- ASCII digit test. -/
def isAsciiDigit (c : Char) : Bool := 48 ≤ c.toNat && c.toNat ≤ 57

/-- ASCII letter test. -/
def isAsciiAlpha (c : Char) : Bool :=
  (65 ≤ c.toNat && c.toNat ≤ 90) || (97 ≤ c.toNat && c.toNat ≤ 122)

/-- Value of a non-empty digit string, as Python `int` reads a `\d+` group. -/
def digitsToNat (cs : List Char) : Nat := cs.foldl (fun a c => a * 10 + (c.toNat - 48)) 0

/-- Model of Python `str.replace(" ", "")`. -/
def strRemoveSpaces (s : String) : String := (s.toList.filter (· ≠ ' ')).asString

/-- JSON values as produced by `json.loads`: the shapes the validated plans
are built from.  Objects are association lists in insertion order, matching
Python dict semantics for the operations the code performs. -/
inductive JVal where
  | null : JVal
  | bool (b : Bool) : JVal
  | int (n : Int) : JVal
  | str (s : String) : JVal
  | arr (xs : List JVal) : JVal
  | obj (kvs : List (String × JVal)) : JVal

/-- Association lists standing for Python dicts. -/
abbrev KVs := List (String × JVal)

/-- Python `d.get(k)` / `k in d` (first binding wins; dict keys are unique). -/
def lookupKV (kvs : KVs) (k : String) : Option JVal :=
  match kvs with
  | [] => none
  | (k', v) :: t => if k' == k then some v else lookupKV t k

/-- Python `d[k] = v`: replace the binding in place, or append a new one
(insertion-order semantics of Python 3.7+ dicts). -/
def setKV (kvs : KVs) (k : String) (v : JVal) : KVs :=
  match kvs with
  | [] => [(k, v)]
  | (k', v') :: t => if k' == k then (k, v) :: t else (k', v') :: setKV t k v

/-- Python truthiness of a JSON value (`if not path`, `if result[...]`). -/
def truthyJVal (v : JVal) : Bool :=
  match v with
  | .null => false
  | .bool b => b
  | .int n => !(n == 0)
  | .str s => !(s == "")
  | .arr xs => !xs.isEmpty
  | .obj kvs => !kvs.isEmpty

/-- Python equality between a JSON value and a string literal (used by
list-membership tests such as `path in ["/", "C:\\", "C:"]`). -/
def jvalEqStr (v : JVal) (s : String) : Bool :=
  match v with
  | .str t => t == s
  | _ => false

namespace Config

/-- SAFE_ACTIONS of src/config.py. -/
def SAFE_ACTIONS : List String :=
  ["open_app", "close_app", "open_browser", "navigate", "click", "type_text",
   "move_mouse", "file_create", "summarize_screen", "read_screen", "search_web",
   "wait"]

/-- DANGEROUS_ACTIONS of src/config.py. -/
def DANGEROUS_ACTIONS : List String :=
  ["file_delete", "file_move", "install_software", "system_volume",
   "system_brightness", "press_key"]

/-- ALL_ACTION_TYPES of src/config.py: the union SAFE_ACTIONS | DANGEROUS_ACTIONS
(the two sets are disjoint, so membership in the concatenation is membership
in the union). -/
def ALL_ACTION_TYPES : List String := SAFE_ACTIONS ++ DANGEROUS_ACTIONS

end Config

namespace Schema

/-- Valid task types, schema.py line 67. -/
def valid_task_types : List String := ["single_step", "multi_step", "clarify"]

/-- Python membership of `plan["task_type"]` in the set `valid_task_types`
(schema.py line 68).  A hashable operand (string, number, boolean, null)
yields a Boolean — only a string can equal a member of a set of strings —
while an unhashable operand (a JSON array or object) raises `TypeError` at
the membership test itself, modelled as `none`. -/
def isValidTaskTypeVal (v : JVal) : Option Bool :=
  match v with
  | .str s => some (valid_task_types.contains s)
  | .null => some false
  | .bool _ => some false
  | .int _ => some false
  | .arr _ => none
  | .obj _ => none

/-- Python `action["type"] in config.ALL_ACTION_TYPES`. -/
def isAllowedTypeVal (v : JVal) : Bool :=
  match v with
  | .str s => Config.ALL_ACTION_TYPES.contains s
  | _ => false

/-- Python `action["type"] in config.DANGEROUS_ACTIONS` (schema.py line 105). -/
def actionTypeDangerous (a : JVal) : Bool :=
  match a with
  | .obj akvs =>
    match lookupKV akvs "type" with
    | some (.str s) => Config.DANGEROUS_ACTIONS.contains s
    | _ => false
  | _ => false

/-- Per-action validation and repair, schema.py lines 84-99: an action must
be a dict carrying an allowed `type`; a missing `parameters` is defaulted to
the empty dict, a non-dict `parameters` is rejected.  A non-string `type`
is never in the allowed set: for hashable values the membership test of
line 91 returns False (rejection), and for the unhashable array/object
operands it raises `TypeError`; both end the validation without a plan,
which the `none` result models. -/
def fixAction (a : JVal) : Option JVal :=
  match a with
  | .obj akvs =>
    match lookupKV akvs "type" with
    | none => none
    | some tv =>
      if !isAllowedTypeVal tv then none
      else
        match lookupKV akvs "parameters" with
        | none => some (.obj (setKV akvs "parameters" (.obj [])))
        | some (.obj _) => some (.obj akvs)
        | some _ => none
  | _ => none

/-- The action loop of schema.py lines 84-99 over the whole list. -/
def fixActions : List JVal → Option (List JVal)
  | [] => some []
  | a :: t =>
    match fixAction a with
    | none => none
    | some a' =>
      match fixActions t with
      | none => none
      | some t' => some (a' :: t')

/-- Auto-assignment of a missing `task_type`, schema.py lines 54-61: infer
from the action count when `actions` is present and a list, otherwise
reject. -/
def vap_fill_task_type (kvs : KVs) : Option KVs :=
  match lookupKV kvs "task_type" with
  | some _ => some kvs
  | none =>
    match lookupKV kvs "actions" with
    | some (.arr as) =>
      some (setKV kvs "task_type"
        (.str (if as.length > 1 then "multi_step" else "single_step")))
    | _ => none

/-- Action count used by the task_type auto-correction, schema.py line 69. -/
def vap_num_actions (kvs : KVs) : Nat :=
  match lookupKV kvs "actions" with
  | some (.arr as) => as.length
  | _ => 1

/-- Auto-correction of an invalid `task_type`, schema.py lines 66-72.  The
membership test runs first: on an unhashable `task_type` it raises
`TypeError` (`none`) and no correction happens; a hashable value outside
the valid set is replaced by the count-inferred task type. -/
def vap_correct_task_type (kvs : KVs) : Option KVs :=
  match lookupKV kvs "task_type" with
  | some v =>
    match isValidTaskTypeVal v with
    | none => none
    | some true => some kvs
    | some false =>
      some (setKV kvs "task_type"
        (.str (if vap_num_actions kvs > 1 then "multi_step" else "single_step")))
  | none => some kvs

/-- Defaulting of a missing `requires_confirmation` from the dangerous-action
set, schema.py lines 102-107 (`as'` is the repaired action list the plan
holds at that point). -/
def vap_default_confirmation (kvs : KVs) (as' : List JVal) : KVs :=
  match lookupKV kvs "requires_confirmation" with
  | some _ => kvs
  | none => setKV kvs "requires_confirmation" (.bool (as'.any actionTypeDangerous))

/-- Tail of validate_action_plan after the task_type repairs, schema.py
lines 75-110: `actions` must be a non-empty list of valid actions; the
repaired actions are written back and `requires_confirmation` defaulted. -/
def vap_tail (kvs2 : KVs) : Option JVal :=
  match lookupKV kvs2 "actions" with
  | some (.arr as) =>
    if as.isEmpty then none
    else
      match fixActions as with
      | none => none
      | some as' =>
        some (.obj (vap_default_confirmation (setKV kvs2 "actions" (.arr as')) as'))
  | _ => none

/-- validate_action_plan of src/core/ai/schema.py, from the point where the
raw text has been parsed into a JSON value (lines 49-110): the structural
validation and auto-repair of a plan object.  `none` marks every outcome
in which no validated plan is produced: the explicit `return None` paths,
and the `TypeError` the set-membership test of line 68 raises on an
unhashable `task_type` — both call sites (ollama_provider.py,
openrouter.py) run the validation inside `except Exception` and treat a
raise exactly like a `None` return, as a failed attempt. -/
def validate_action_plan (plan : JVal) : Option JVal :=
  match plan with
  | .obj kvs =>
    match vap_fill_task_type kvs with
    | none => none
    | some kvs1 =>
      match lookupKV kvs1 "actions" with
      | none => none
      | some _ =>
        match vap_correct_task_type kvs1 with
        | none => none
        | some kvs2 => vap_tail kvs2
  | _ => none

/-- Boolean form of the per-action success condition of the loop at schema.py
lines 84-99 (used to state hypotheses that a witness can discharge by
evaluation). -/
def actionOK (a : JVal) : Bool :=
  match a with
  | .obj akvs =>
    (match lookupKV akvs "type" with
     | some tv => isAllowedTypeVal tv
     | none => false)
    &&
    (match lookupKV akvs "parameters" with
     | none => true
     | some (.obj _) => true
     | some _ => false)
  | _ => false

/-- Does the plan object lack a `task_type`, or carry a hashable one
outside the valid set?  These are exactly the two auto-repair cases of
schema.py lines 54-72; an unhashable `task_type` is excluded, because there
the membership test raises before any repair. -/
def taskTypeMissingOrInvalid (kvs : KVs) : Bool :=
  match lookupKV kvs "task_type" with
  | none => true
  | some v =>
    match isValidTaskTypeVal v with
    | some b => !b
    | none => false

/-- Does an action object carry a `parameters` key? -/
def paramsPresentB (a : JVal) : Bool :=
  match a with
  | .obj akvs => (lookupKV akvs "parameters").isSome
  | _ => false

end Schema

/-- An action of a validated plan: a `type` string and a `parameters` dict.
Validated plans always carry both keys (schema.py guarantees them). -/
structure PlanAction where
  type : String
  parameters : KVs

/-- A validated action plan.  `requires_confirmation` is `none` when the
dict lacks the key (the fast-path plans of rule_parser.py omit it; consumers
read it with `plan.get("requires_confirmation", False)`). -/
structure ActionPlan where
  task_type : String
  requires_confirmation : Option Bool
  actions : List PlanAction

namespace PlanValidator

/-- ALLOWED_ACTIONS of src/core/ai/plan_validator.py (lines 14-42). -/
def ALLOWED_ACTIONS : List String :=
  ["open_app", "close_app", "open_browser", "navigate", "click", "type_text",
   "press_key", "move_mouse", "file_create", "file_delete", "file_move",
   "install_software", "system_volume", "system_brightness", "system_sleep",
   "system_lock", "system_shutdown", "system_restart", "system_wifi",
   "system_bluetooth", "system_screensaver", "system_mute", "system_unmute",
   "summarize_screen", "read_screen", "search_web", "wait"]

/-- DANGEROUS_ACTIONS of src/core/ai/plan_validator.py (lines 45-51). -/
def DANGEROUS_ACTIONS : List String :=
  ["install_software", "file_delete", "system_shutdown", "system_restart",
   "system_sleep"]

/-- Paths Python refuses to delete, plan_validator.py line 193. -/
def root_designators : List String := ["/", "C:\\", "C:"]

/-- Shell metacharacters blanked from install parameters, plan_validator.py
line 200 (the last entry is the backquote character). -/
def shell_metacharacters : List Char := [';', '|', '&', '>', '<', Char.ofNat 96]

/-- sanitize_action_parameters of src/core/ai/plan_validator.py (lines
176-211).  `none` marks the `TypeError` Python raises when the membership
test runs over a non-string `package_id` or the comparison over a
non-numeric `delay` (Python bool compares as 0/1 and never exceeds the cap). -/
def sanitize_action_parameters (action_type : String) (params : KVs) : Option KVs :=
  if action_type = "file_delete" then
    let path := (lookupKV params "path").getD (.str "")
    if !truthyJVal path || root_designators.any (fun r => jvalEqStr path r) then
      some []
    else some params
  else if action_type = "install_software" then
    match lookupKV params "package_id" with
    | none => some params
    | some (.str s) =>
      if shell_metacharacters.any (fun c => s.toList.contains c) then
        some (setKV params "package_id" (.str ""))
      else some params
    | some _ => none
  else if action_type = "system_shutdown" ∨ action_type = "system_restart" then
    match (lookupKV params "delay").getD (.int 60) with
    | .int d => if d > 3600 then some (setKV params "delay" (.int 3600)) else some params
    | .bool _ => some params
    | _ => none
  else some params

/-- Action loop of PlanValidator.sanitize_plan (plan_validator.py lines
255-261): each action keeps its type and receives scrubbed parameters. -/
def sanitizeActionsList : List PlanAction → Option (List PlanAction)
  | [] => some []
  | a :: t =>
    match sanitize_action_parameters a.type a.parameters with
    | none => none
    | some ps =>
      match sanitizeActionsList t with
      | none => none
      | some t' => some (⟨a.type, ps⟩ :: t')

/-- PlanValidator.sanitize_plan of src/core/ai/plan_validator.py (lines
243-264): a copy of the plan whose actions carry sanitized parameters. -/
def sanitize_plan (plan : ActionPlan) : Option ActionPlan :=
  match sanitizeActionsList plan.actions with
  | none => none
  | some as => some { plan with actions := as }

end PlanValidator

namespace Validator

/-- BLOCKED_URL_PATTERNS of src/core/safety/validator.py (lines 19-23);
each is matched with `re.match`, i.e. as a prefix of the lower-cased URL. -/
def BLOCKED_URL_PATTERNS : List String := ["javascript:", "data:", "file:///"]

/-- BLOCKED_KEY_COMBOS of validator.py (lines 26-28): empty by default. -/
def BLOCKED_KEY_COMBOS : List String := []

/-- DANGEROUS_KEY_COMBOS of validator.py (lines 30-35). -/
def DANGEROUS_KEY_COMBOS : List String :=
  ["alt+f4", "ctrl+alt+delete", "ctrl+shift+delete", "win+l"]

/-- Directory names treated as suspicious, validator.py line 152. -/
def suspicious_dirs : List String := ["system32", "syswow64", "boot", "recovery"]

/-- Is the character a path separator?  Both separators occur in the
repository's Windows-style paths. -/
def isPathSep (c : Char) : Bool := c == '/' || c == '\\'

/-- Accumulator splitting of a path string into components. -/
def pathPartsAux : List Char → List Char → List String
  | [], acc => if acc.isEmpty then [] else [acc.reverse.asString]
  | c :: t, acc =>
    if isPathSep c then
      if acc.isEmpty then pathPartsAux t [] else acc.reverse.asString :: pathPartsAux t []
    else pathPartsAux t (c :: acc)

/-- Components of a path string, the model of `pathlib.Path(...).parts`
(empty components between separators are dropped). -/
def pathParts (s : String) : List String := pathPartsAux s.toList []

/-- Dot-segment normalization, the purely lexical part of
`Path(...).resolve()` on the already-absolute paths the policy compares. -/
def resolveParts (ps : List String) : List String :=
  ps.foldl
    (fun acc p => if p == "." then acc else if p == ".." then acc.dropLast else acc ++ [p])
    []

/-- SafetyValidator._check_path_safety (validator.py lines 132-157).
`protected_paths` holds the resolved component lists of config.PROTECTED_PATHS.
`Path(path_str)` raises on a non-string argument and the surrounding
`except` turns that into "blocked"; `path.relative_to(protected)` succeeds
exactly when the protected components are a prefix of the path components. -/
def check_path_safety (protected_paths : List (List String)) (v : JVal) : String :=
  match v with
  | .str s =>
    let path := resolveParts (pathParts s)
    if protected_paths.any (fun pr => pr.isPrefixOf path) then "blocked"
    else if path.any (fun part => suspicious_dirs.contains (strToLower part)) then
      "dangerous"
    else "safe"
  | _ => "blocked"

/-- Is the character allowed inside a URL scheme after the first letter
(`urllib.parse` accepts letters, digits, `+`, `-`, `.`)? -/
def isSchemeChar (c : Char) : Bool :=
  isAsciiAlpha c || isAsciiDigit c || c == '+' || c == '-' || c == '.'

/-- The scheme `urllib.parse.urlparse` extracts: a leading letter, then
scheme characters, terminated by a colon; lower-cased by urlparse.  Empty
when the URL carries no scheme. -/
def parseScheme (url : String) : String :=
  match url.toList with
  | [] => ""
  | c :: _ =>
    if isAsciiAlpha c then
      let cand := url.toList.takeWhile isSchemeChar
      match url.toList.drop cand.length with
      | ':' :: _ => (cand.map lowerChar).asString
      | _ => ""
    else ""

/-- SafetyValidator._check_url_safety (validator.py lines 159-182): a
denylist prefix match on the lower-cased, stripped URL, then a scheme test;
a scheme-less URL is treated as safe. -/
def check_url_safety (url : String) : String :=
  let url_lower := strStrip (strToLower url)
  if BLOCKED_URL_PATTERNS.any (fun p => strStartsWith url_lower p) then "blocked"
  else
    let scheme := parseScheme url
    if scheme == "" then "safe"
    else if scheme == "http" || scheme == "https" then "safe"
    else "blocked"

/-- SafetyValidator._check_key_safety (validator.py lines 184-199). -/
def check_key_safety (key_combo : String) : String :=
  let normalized := strRemoveSpaces (strToLower key_combo)
  if BLOCKED_KEY_COMBOS.any (fun b => normalized == strRemoveSpaces b) then "blocked"
  else if DANGEROUS_KEY_COMBOS.any (fun d => normalized == strRemoveSpaces d) then
    "dangerous"
  else "safe"

/-- The path-bearing parameter keys, in the order classify_action checks
them (validator.py line 59). -/
def path_keys : List String := ["path", "source", "destination"]

/-- The path loop of classify_action (validator.py lines 59-65): the first
present key whose check is "blocked" or "dangerous" decides; `none` means
the loop fell through with every present key safe. -/
def pathParamsVerdict (pp : List (List String)) (params : KVs) : List String → Option String
  | [] => none
  | k :: ks =>
    match lookupKV params k with
    | none => pathParamsVerdict pp params ks
    | some v =>
      let c := check_path_safety pp v
      if c = "blocked" then some "blocked"
      else if c = "dangerous" then some "dangerous"
      else pathParamsVerdict pp params ks

/-- SafetyValidator.classify_action (validator.py lines 46-83).  The result
is `none` when the Python code would raise (a non-string `url` or `key`
parameter hits `.lower()` on a non-string); otherwise `some` of the
classification string. -/
def classify_action (pp : List (List String)) (a : PlanAction) : Option String :=
  if !(Config.ALL_ACTION_TYPES.contains a.type) then some "blocked"
  else
    match pathParamsVerdict pp a.parameters path_keys with
    | some v => some v
    | none =>
      let urlStep : Option (Option String) :=
        match lookupKV a.parameters "url" with
        | none => some none
        | some (.str u) =>
          if check_url_safety u = "blocked" then some (some "blocked") else some none
        | some _ => none
      match urlStep with
      | none => none
      | some (some v) => some v
      | some none =>
        let keyStep : Option (Option String) :=
          if a.type = "press_key" then
            match lookupKV a.parameters "key" with
            | none => some none
            | some (.str k) =>
              let kc := check_key_safety k
              if kc ≠ "safe" then some (some kc) else some none
            | some _ => none
          else some none
        match keyStep with
        | none => none
        | some (some v) => some v
        | some none =>
          some (if Config.DANGEROUS_ACTIONS.contains a.type then "dangerous" else "safe")

/-- The validation verdict dict built by SafetyValidator.validate_plan
(validator.py lines 95-102). -/
structure Verdict where
  approved : Bool
  needs_confirmation : Bool
  blocked_actions : List Nat
  dangerous_actions : List Nat
  safe_actions : List Nat
  reasons : List String
deriving DecidableEq

/-- Initial verdict, validator.py lines 95-102. -/
def initVerdict (plan : ActionPlan) : Verdict :=
  { approved := true
    needs_confirmation := plan.requires_confirmation.getD false
    blocked_actions := []
    dangerous_actions := []
    safe_actions := []
    reasons := [] }

/-- The classification loop of validate_plan (validator.py lines 104-120),
threading the verdict through the enumerated actions. -/
def validateLoop (pp : List (List String)) : List PlanAction → Nat → Verdict → Option Verdict
  | [], _, acc => some acc
  | a :: rest, i, acc =>
    match classify_action pp a with
    | none => none
    | some c =>
      let acc' :=
        if c = "blocked" then
          { acc with
            blocked_actions := acc.blocked_actions ++ [i]
            reasons := acc.reasons ++
              ["Action " ++ toString (i + 1) ++ " (" ++ a.type ++
               ") is BLOCKED: violates safety policy"] }
        else if c = "dangerous" then
          { acc with
            dangerous_actions := acc.dangerous_actions ++ [i]
            needs_confirmation := true
            reasons := acc.reasons ++
              ["Action " ++ toString (i + 1) ++ " (" ++ a.type ++
               ") requires confirmation"] }
        else { acc with safe_actions := acc.safe_actions ++ [i] }
      validateLoop pp rest (i + 1) acc'

/-- SafetyValidator.validate_plan (validator.py lines 85-130): run the loop,
then withdraw approval when any action is blocked, and in safe mode force
confirmation when any action is dangerous. -/
def validate_plan (safe_mode : Bool) (pp : List (List String)) (plan : ActionPlan) :
    Option Verdict :=
  match validateLoop pp plan.actions 0 (initVerdict plan) with
  | none => none
  | some r =>
    let r1 := if r.blocked_actions.isEmpty then r else { r with approved := false }
    let r2 :=
      if safe_mode && !r1.dangerous_actions.isEmpty then
        { r1 with needs_confirmation := true }
      else r1
    some r2

/-- Boolean statement that no path-bearing parameter of `params` classifies
as "dangerous" (every present key checks "blocked" or "safe"). -/
def no_dangerous_path_param (pp : List (List String)) (params : KVs) : Bool :=
  path_keys.all fun k =>
    match lookupKV params k with
    | some v => !(check_path_safety pp v == "dangerous")
    | none => true

/-- Boolean statement that some path-bearing parameter is a string whose
resolved components lie under a configured protected root. -/
def path_param_in_protected_root (pp : List (List String)) (params : KVs) : Bool :=
  path_keys.any fun k =>
    match lookupKV params k with
    | some (.str s) => pp.any (fun pr => pr.isPrefixOf (resolveParts (pathParts s)))
    | _ => false

end Validator

namespace Dispatcher

/-- Outcome of one external handler invocation: a returned result dict
(whose `success`, `message` and `skipped` keys may each be absent), or a
raised exception carrying a message. -/
inductive HOutcome where
  | ret (success : Option Bool) (message : Option String) (skipped : Option Bool)
  | exn (msg : String)

/-- One entry of the result list execute_plan builds.  An `Option` field is
`none` when the corresponding dict key is absent (synthesized skip entries
carry `skipped := some true`; handler results usually carry no `skipped`
key).  The wall-clock `elapsed_seconds` field is not modelled. -/
structure ActionResult where
  action_index : Nat
  action_type : String
  success : Option Bool
  message : Option String
  skipped : Option Bool
deriving DecidableEq

/-- Keys of the `self._handlers` table built in ActionDispatcher.__init__
(dispatcher.py lines 33-74), in source order. -/
def handlerTypes : List String :=
  ["open_browser", "navigate", "search_web", "click", "type_text", "press_key",
   "move_mouse", "file_create", "file_delete", "file_move", "open_app",
   "close_app", "system_volume", "system_brightness", "system_sleep",
   "system_lock", "system_shutdown", "system_restart", "system_wifi",
   "system_bluetooth", "system_screensaver", "system_mute", "system_unmute",
   "install_software", "read_screen", "summarize_screen", "wait"]

/-- Synthesized results for the remaining actions after a failure
(dispatcher.py lines 156-163). -/
def skippedTail : List PlanAction → Nat → List ActionResult
  | [], _ => []
  | a :: t, j =>
    ⟨j, a.type, some false, some "Skipped (previous action failed)", some true⟩ ::
      skippedTail t (j + 1)

/-- The action loop of ActionDispatcher.execute_plan (dispatcher.py lines
116-176), parameterized by the handler table (a lookup returning `none`
models an unregistered type).  A handler that raises (`HOutcome.exn`) has
its exception caught, converted to a failure result, and the loop breaks
without synthesizing results for the remaining actions (lines 166-176);
a handler result whose `success` reads false stops the loop and the
remaining actions are synthesized as skipped (lines 152-164). -/
def executeLoop (handlers : String → Option (KVs → HOutcome)) (skips : List Nat) :
    List PlanAction → Nat → List ActionResult
  | [], _ => []
  | a :: rest, i =>
    if skips.contains i then
      ⟨i, a.type, some false, some "Skipped (blocked or denied)", some true⟩ ::
        executeLoop handlers skips rest (i + 1)
    else
      match handlers a.type with
      | none =>
        ⟨i, a.type, some false, some ("No handler for: " ++ a.type), none⟩ ::
          skippedTail rest (i + 1)
      | some h =>
        match h a.parameters with
        | .exn m => [⟨i, a.type, some false, some ("Exception: " ++ m), none⟩]
        | .ret s msg sk =>
          if s.getD false then
            ⟨i, a.type, s, msg, sk⟩ :: executeLoop handlers skips rest (i + 1)
          else
            ⟨i, a.type, s, msg, sk⟩ :: skippedTail rest (i + 1)

/-- ActionDispatcher.execute_plan (dispatcher.py lines 100-179). -/
def execute_plan (handlers : String → Option (KVs → HOutcome)) (plan : ActionPlan)
    (skips : List Nat) : List ActionResult :=
  executeLoop handlers skips plan.actions 0

end Dispatcher

namespace Provider

/-- Which backend a FallbackProvider.plan call invoked. -/
inductive ProviderCall where
  | primaryCall : ProviderCall
  | secondaryCall : ProviderCall
deriving DecidableEq

/-- FallbackProvider.plan (provider_factory.py lines 40-64) for one call.
The two `Option` arguments are what each backend would return for this
request; the result carries the plan returned, the updated
consecutive-primary-failure counter, and the trace of backend invocations
in order. -/
def fallback_plan {α : Type} (primaryResult secondaryResult : Option α)
    (consecutive_primary_failures : Nat) : Option α × Nat × List ProviderCall :=
  match primaryResult with
  | some r => (some r, 0, [ProviderCall.primaryCall])
  | none =>
    match secondaryResult with
    | some r =>
      (some r, consecutive_primary_failures + 1,
       [ProviderCall.primaryCall, ProviderCall.secondaryCall])
    | none =>
      (none, consecutive_primary_failures + 1,
       [ProviderCall.primaryCall, ProviderCall.secondaryCall])

/-- A session of consecutive FallbackProvider.plan calls: the counter is the
only state the object threads between calls (the primary/secondary pairing
is fixed at construction, provider_factory.py lines 27-31 and 74-99). -/
def fallback_session {α : Type} :
    List (Option α × Option α) → Nat → List (Option α × List ProviderCall) × Nat
  | [], fails => ([], fails)
  | (p, s) :: rest, fails =>
    let out := fallback_plan p s fails
    let tail := fallback_session rest out.2.1
    ((out.1, out.2.2) :: tail.1, tail.2)

end Provider

namespace Browser

/-- URL preparation step of BrowserController.navigate (browser_control.py
lines 115-122): an empty URL is refused, a URL without an http/https prefix
is upgraded to https.  Only the URL computation is modelled; the actual
page navigation is an external effect. -/
def navigate_target_url (url : String) : Option String :=
  if url == "" then none
  else
    some (if strStartsWith url "http://" || strStartsWith url "https://" then url
          else "https://" ++ url)

end Browser

namespace Rules

/-- Right-hand side of one SIMPLE_COMMAND_RULES entry (rule_parser.py lines
17-101): either a literal plan dict or the name of a special handler. -/
inductive RuleRhs where
  | planR (p : ActionPlan) : RuleRhs
  | special (name : String) : RuleRhs

/-- Opening verbs `(?:open|launch|start)`. -/
def openish (t : String) : Bool := t == "open" || t == "launch" || t == "start"

/-- Non-empty all-digit token, a `(\d+)` group. -/
def isDigits (s : String) : Bool := !s.toList.isEmpty && s.toList.all isAsciiDigit

/-- Numeric group possibly carrying an attached percent sign:
`(\d+)(?:\s*%)?` when the percent adjoins the digits. -/
def stripPct (s : String) : Option String :=
  if isDigits s then some s
  else
    match s.toList.reverse with
    | '%' :: rest =>
      let d := rest.reverse
      if !d.isEmpty && d.all isAsciiDigit then some d.asString else none
    | _ => none

/-- Tail of a volume/brightness pattern after "to": the digits token with an
optional attached or detached percent sign. -/
def numArgTail : List String → Option String
  | [n] => stripPct n
  | [n, p] => if p == "%" && isDigits n then some n else none
  | _ => none

/-- Plan literal helper: a single-action plan as the rule table writes it
(no `requires_confirmation` key). -/
def mkPlan1 (ty : String) (ps : KVs) : ActionPlan :=
  ⟨"single_step", none, [⟨ty, ps⟩]⟩

/-- Matcher for `^(?:open|launch|start)\s+(?:google\s+)?chrome(?:\s+browser)?$`. -/
def r_chrome (toks : List String) : Option (Option String) :=
  match toks with
  | [o, c] => if openish o && c == "chrome" then some none else none
  | [o, g, c] =>
    if openish o && ((g == "google" && c == "chrome") ||
                     (g == "chrome" && c == "browser")) then some none else none
  | [o, g, c, b] =>
    if openish o && g == "google" && c == "chrome" && b == "browser" then some none
    else none
  | _ => none

/-- Matcher for `^(?:open|launch|start)\s+(?:mozilla\s+)?firefox(?:\s+browser)?$`. -/
def r_firefox (toks : List String) : Option (Option String) :=
  match toks with
  | [o, c] => if openish o && c == "firefox" then some none else none
  | [o, g, c] =>
    if openish o && ((g == "mozilla" && c == "firefox") ||
                     (g == "firefox" && c == "browser")) then some none else none
  | [o, g, c, b] =>
    if openish o && g == "mozilla" && c == "firefox" && b == "browser" then some none
    else none
  | _ => none

/-- Matcher for `^(?:open|launch|start)\s+(?:microsoft\s+)?edge(?:\s+browser)?$`. -/
def r_edge (toks : List String) : Option (Option String) :=
  match toks with
  | [o, c] => if openish o && c == "edge" then some none else none
  | [o, g, c] =>
    if openish o && ((g == "microsoft" && c == "edge") ||
                     (g == "edge" && c == "browser")) then some none else none
  | [o, g, c, b] =>
    if openish o && g == "microsoft" && c == "edge" && b == "browser" then some none
    else none
  | _ => none

/-- Matcher for `^(?:open|launch|start)\s+(?:ms\s+)?word(?:\s+document)?$`. -/
def r_word (toks : List String) : Option (Option String) :=
  match toks with
  | [o, c] => if openish o && c == "word" then some none else none
  | [o, g, c] =>
    if openish o && ((g == "ms" && c == "word") ||
                     (g == "word" && c == "document")) then some none else none
  | [o, g, c, b] =>
    if openish o && g == "ms" && c == "word" && b == "document" then some none
    else none
  | _ => none

/-- Matcher for `^(?:open|launch|start)\s+(?:ms\s+)?excel(?:\s+sheet)?$`. -/
def r_excel (toks : List String) : Option (Option String) :=
  match toks with
  | [o, c] => if openish o && c == "excel" then some none else none
  | [o, g, c] =>
    if openish o && ((g == "ms" && c == "excel") ||
                     (g == "excel" && c == "sheet")) then some none else none
  | [o, g, c, b] =>
    if openish o && g == "ms" && c == "excel" && b == "sheet" then some none
    else none
  | _ => none

/-- Matcher for `^(?:open|launch|start)\s+notepad$`. -/
def r_notepad (toks : List String) : Option (Option String) :=
  match toks with
  | [o, c] => if openish o && c == "notepad" then some none else none
  | _ => none

/-- Matcher for `^(?:open|launch|start)\s+(?:file\s+)?explorer$`. -/
def r_explorer (toks : List String) : Option (Option String) :=
  match toks with
  | [o, c] => if openish o && c == "explorer" then some none else none
  | [o, g, c] => if openish o && g == "file" && c == "explorer" then some none else none
  | _ => none

/-- Matcher for `^(?:open|launch|start)\s+(?:task\s+)?manager$`. -/
def r_manager (toks : List String) : Option (Option String) :=
  match toks with
  | [o, c] => if openish o && c == "manager" then some none else none
  | [o, g, c] => if openish o && g == "task" && c == "manager" then some none else none
  | _ => none

/-- Matcher for `^(?:open|launch|start)\s+calculator$`. -/
def r_calculator (toks : List String) : Option (Option String) :=
  match toks with
  | [o, c] => if openish o && c == "calculator" then some none else none
  | _ => none

/-- Matcher for `^(?:open|launch|start)\s+settings$`. -/
def r_settings (toks : List String) : Option (Option String) :=
  match toks with
  | [o, c] => if openish o && c == "settings" then some none else none
  | _ => none

/-- Sound words of the mute/unmute patterns. -/
def soundish (t : String) : Bool := t == "audio" || t == "sound" || t == "volume"

/-- Matcher for `^(?:mute|silence)(?:\s+(?:the\s+)?(?:audio|sound|volume))?$`. -/
def r_mute (toks : List String) : Option (Option String) :=
  match toks with
  | [m] => if m == "mute" || m == "silence" then some none else none
  | [m, x] => if (m == "mute" || m == "silence") && soundish x then some none else none
  | [m, t, x] =>
    if (m == "mute" || m == "silence") && t == "the" && soundish x then some none
    else none
  | _ => none

/-- Matcher for `^unmute(?:\s+(?:the\s+)?(?:audio|sound|volume))?$`. -/
def r_unmute (toks : List String) : Option (Option String) :=
  match toks with
  | [m] => if m == "unmute" then some none else none
  | [m, x] => if m == "unmute" && soundish x then some none else none
  | [m, t, x] => if m == "unmute" && t == "the" && soundish x then some none else none
  | _ => none

/-- Matcher for `^set\s+(?:the\s+)?volume\s+to\s+(\d+)(?:\s*%)?$`. -/
def r_set_volume (toks : List String) : Option (Option String) :=
  match toks with
  | "set" :: "volume" :: "to" :: rest => (numArgTail rest).map some
  | "set" :: "the" :: "volume" :: "to" :: rest => (numArgTail rest).map some
  | _ => none

/-- Matcher for `^volume\s+(\d+)(?:\s*%)?$`. -/
def r_volume (toks : List String) : Option (Option String) :=
  match toks with
  | "volume" :: rest => (numArgTail rest).map some
  | _ => none

/-- Matcher for `^set\s+(?:the\s+)?brightness\s+to\s+(\d+)(?:\s*%)?$`. -/
def r_set_brightness (toks : List String) : Option (Option String) :=
  match toks with
  | "set" :: "brightness" :: "to" :: rest => (numArgTail rest).map some
  | "set" :: "the" :: "brightness" :: "to" :: rest => (numArgTail rest).map some
  | _ => none

/-- Matcher for `^brightness\s+(\d+)(?:\s*%)?$`. -/
def r_brightness (toks : List String) : Option (Option String) :=
  match toks with
  | "brightness" :: rest => (numArgTail rest).map some
  | _ => none

/-- Matcher for `^(?:lock|lock\s+(?:the\s+)?screen|lock\s+up)$`. -/
def r_lock (toks : List String) : Option (Option String) :=
  match toks with
  | ["lock"] => some none
  | ["lock", "screen"] => some none
  | ["lock", "the", "screen"] => some none
  | ["lock", "up"] => some none
  | _ => none

/-- Matcher for
`^(?:sleep|put\s+(?:the\s+)?(?:system|computer)\s+to\s+sleep|go\s+to\s+sleep)$`. -/
def r_sleep (toks : List String) : Option (Option String) :=
  match toks with
  | ["sleep"] => some none
  | ["go", "to", "sleep"] => some none
  | ["put", x, "to", "sleep"] =>
    if x == "system" || x == "computer" then some none else none
  | ["put", "the", x, "to", "sleep"] =>
    if x == "system" || x == "computer" then some none else none
  | _ => none

/-- Tail `(?:\s+in\s+(\d+)\s+(?:second|sec))?` of the shutdown/restart
patterns (note: the plural "seconds" does not match). -/
def inTail (n u : String) : Option (Option String) :=
  if isDigits n && (u == "second" || u == "sec") then some (some n) else none

/-- Matcher for `^(?:shutdown|shut\s+down|power\s+off)(?:\s+in\s+(\d+)\s+(?:second|sec))?$`. -/
def r_shutdown (toks : List String) : Option (Option String) :=
  match toks with
  | ["shutdown"] => some none
  | ["shut", "down"] => some none
  | ["power", "off"] => some none
  | ["shutdown", "in", n, u] => inTail n u
  | ["shut", "down", "in", n, u] => inTail n u
  | ["power", "off", "in", n, u] => inTail n u
  | _ => none

/-- Matcher for `^(?:restart|reboot)(?:\s+in\s+(\d+)\s+(?:second|sec))?$`. -/
def r_restart (toks : List String) : Option (Option String) :=
  match toks with
  | ["restart"] => some none
  | ["reboot"] => some none
  | ["restart", "in", n, u] => inTail n u
  | ["reboot", "in", n, u] => inTail n u
  | _ => none

/-- Matcher for `^(?:turn\s+)?wifi\s+(?:on|off)$`. -/
def r_wifi_onoff (toks : List String) : Option (Option String) :=
  match toks with
  | ["wifi", s] => if s == "on" || s == "off" then some none else none
  | ["turn", "wifi", s] => if s == "on" || s == "off" then some none else none
  | _ => none

/-- Matcher for `^(?:toggle|switch)\s+wifi$`. -/
def r_wifi_toggle (toks : List String) : Option (Option String) :=
  match toks with
  | [t, w] => if (t == "toggle" || t == "switch") && w == "wifi" then some none else none
  | _ => none

/-- Matcher for `^(?:turn\s+)?bluetooth\s+(?:on|off)$`. -/
def r_bluetooth_onoff (toks : List String) : Option (Option String) :=
  match toks with
  | ["bluetooth", s] => if s == "on" || s == "off" then some none else none
  | ["turn", "bluetooth", s] => if s == "on" || s == "off" then some none else none
  | _ => none

/-- Matcher for `^(?:toggle|switch)\s+bluetooth$`. -/
def r_bluetooth_toggle (toks : List String) : Option (Option String) :=
  match toks with
  | [t, w] =>
    if (t == "toggle" || t == "switch") && w == "bluetooth" then some none else none
  | _ => none

/-- SIMPLE_COMMAND_RULES of src/core/ai/rule_parser.py (lines 17-101), in
the dict's insertion order; each entry pairs the matcher for its anchored
pattern with the literal plan or special-handler name of the source. -/
def SIMPLE_COMMAND_RULES : List ((List String → Option (Option String)) × RuleRhs) :=
  [(r_chrome, .planR (mkPlan1 "open_browser" [("browser", .str "chrome")])),
   (r_firefox, .planR (mkPlan1 "open_app" [("name", .str "firefox")])),
   (r_edge, .planR (mkPlan1 "open_app" [("name", .str "edge")])),
   (r_word, .planR (mkPlan1 "open_app" [("name", .str "winword")])),
   (r_excel, .planR (mkPlan1 "open_app" [("name", .str "excel")])),
   (r_notepad, .planR (mkPlan1 "open_app" [("name", .str "notepad")])),
   (r_explorer, .planR (mkPlan1 "open_app" [("name", .str "explorer")])),
   (r_manager, .planR (mkPlan1 "open_app" [("name", .str "taskmgr")])),
   (r_calculator, .planR (mkPlan1 "open_app" [("name", .str "calculator")])),
   (r_settings, .planR (mkPlan1 "open_app" [("name", .str "settings")])),
   (r_mute, .planR (mkPlan1 "system_volume" [("action", .str "mute")])),
   (r_unmute, .planR (mkPlan1 "system_volume" [("action", .str "unmute")])),
   (r_set_volume, .special "volume_level"),
   (r_volume, .special "volume_level"),
   (r_set_brightness, .special "brightness_level"),
   (r_brightness, .special "brightness_level"),
   (r_lock, .planR (mkPlan1 "system_lock" [])),
   (r_sleep, .planR (mkPlan1 "system_sleep" [("delay", .int 0)])),
   (r_shutdown, .special "shutdown"),
   (r_restart, .special "restart"),
   (r_wifi_onoff, .special "wifi"),
   (r_wifi_toggle, .planR (mkPlan1 "system_wifi" [("action", .str "toggle")])),
   (r_bluetooth_onoff, .special "bluetooth"),
   (r_bluetooth_toggle, .planR (mkPlan1 "system_bluetooth" [("action", .str "toggle")]))]

/-- The special-handler dispatch of parse_simple_command (rule_parser.py
lines 126-165).  `grp` is the first capture group of the matched pattern;
`textLower` is the normalized command (the wifi/bluetooth handlers test the
substring "on" against the whole text). -/
def applySpecial (name : String) (grp : Option String) (textLower : String) :
    Option ActionPlan :=
  if name == "volume_level" then
    some (mkPlan1 "system_volume" [("level", .int (digitsToNat (grp.getD "").toList))])
  else if name == "brightness_level" then
    some (mkPlan1 "system_brightness"
      [("level", .int (digitsToNat (grp.getD "").toList))])
  else if name == "shutdown" then
    let delay : Int := match grp with | some s => digitsToNat s.toList | none => 60
    some (mkPlan1 "system_shutdown" [("delay", .int delay)])
  else if name == "restart" then
    let delay : Int := match grp with | some s => digitsToNat s.toList | none => 60
    some (mkPlan1 "system_restart" [("delay", .int delay)])
  else if name == "wifi" then
    some (mkPlan1 "system_wifi"
      [("action", .str (if strContainsSub textLower "on" then "on" else "off"))])
  else if name == "bluetooth" then
    some (mkPlan1 "system_bluetooth"
      [("action", .str (if strContainsSub textLower "on" then "on" else "off"))])
  else none

/-- The pattern loop of parse_simple_command (rule_parser.py lines 116-165):
first match wins; an unknown special handler falls through to the next
pattern (as the Python elif chain does). -/
def rulesLoop (textLower : String) (toks : List String) :
    List ((List String → Option (Option String)) × RuleRhs) → Option ActionPlan
  | [] => none
  | (m, rhs) :: rest =>
    match m toks with
    | none => rulesLoop textLower toks rest
    | some grp =>
      match rhs with
      | .planR p => some p
      | .special name =>
        match applySpecial name grp textLower with
        | some p => some p
        | none => rulesLoop textLower toks rest

/-- parse_simple_command of src/core/ai/rule_parser.py (lines 104-168). -/
def parse_simple_command (text : String) : Option ActionPlan :=
  let textLower := strStrip (strToLower text)
  rulesLoop textLower (strWords textLower) SIMPLE_COMMAND_RULES

end Rules

namespace Orchestrator

/-- Phase 4 of Orchestrator._main_loop (orchestrator.py lines 121-130): the
plan is obtained with `self.ai.plan(command, recent)` — the model-backed
provider is invoked unconditionally; parse_simple_command of rule_parser.py
is never consulted (no orchestrator code path calls it).  The boolean
records that the provider was invoked for the utterance. -/
def plan_phase (generator : String → Option ActionPlan) (command : String) :
    Option ActionPlan × Bool :=
  (generator command, true)

end Orchestrator

/-- Resolved component lists of config.PROTECTED_PATHS (config.py lines
58-63): the Windows directory, both Program Files directories, and the
resolved PROJECT_ROOT (placed at C:\Max for these concrete checks). -/
def protectedPaths0 : List (List String) :=
  [["C:", "Max"], ["C:", "Windows"], ["C:", "Program Files"],
   ["C:", "Program Files (x86)"]]

/-- Parsed JSON of a plan whose single action carries the documented type
`system_shutdown` with its documented parameter shape. -/
def shutdownPlanJson : JVal :=
  .obj [("task_type", .str "single_step"),
        ("requires_confirmation", .bool true),
        ("actions", .arr [.obj [("type", .str "system_shutdown"),
                                ("parameters", .obj [("delay", .int 60)])]])]

/-- A two-action plan used to probe the dispatcher. -/
def probePlan2 : ActionPlan :=
  ⟨"multi_step", some false,
   [⟨"open_app", [("name", .str "notepad")]⟩, ⟨"wait", [("seconds", .int 1)]⟩]⟩

/-- Handler table whose open_app handler raises. -/
def handlersExn : String → Option (KVs → Dispatcher.HOutcome) :=
  fun t =>
    if t == "open_app" then some (fun _ => .exn "boom")
    else some (fun _ => .ret (some true) (some "ok") none)

/-- Handler table whose open_app handler returns a failure result. -/
def handlersFail : String → Option (KVs → Dispatcher.HOutcome) :=
  fun t =>
    if t == "open_app" then some (fun _ => .ret (some false) (some "nope") none)
    else some (fun _ => .ret (some true) (some "ok") none)

/-- A generator (model-backed provider) that fails to produce a plan. -/
def genNone : String → Option ActionPlan := fun _ => none

/-- Action whose `source` hits a suspicious directory name (classified
dangerous) while its `destination` resolves inside the protected Windows
root (classified blocked). -/
def mixedPathsAction : PlanAction :=
  ⟨"file_move", [("source", .str "C:/system32/tool.exe"),
                 ("destination", .str "C:/Windows/evil.exe")]⟩

/-- Action whose only path parameter resolves inside the protected project
root (the application's own installation directory). -/
def protectedPathAction : PlanAction :=
  ⟨"file_delete", [("path", .str "C:/Max/config.py")]⟩

/-- Action carrying both a dangerous path parameter and a denylisted URL. -/
def dangerousPathUrlAction : PlanAction :=
  ⟨"navigate", [("path", .str "C:/system32/x"),
                ("url", .str "javascript:alert(1)")]⟩

/-- Action whose only parameter is a URL with a disallowed scheme. -/
def ftpUrlAction : PlanAction :=
  ⟨"navigate", [("url", .str "ftp://host/file")]⟩

/-- A one-action all-safe plan. -/
def safePlan1 : ActionPlan :=
  ⟨"single_step", some false, [⟨"open_app", [("name", .str "notepad")]⟩]⟩

/-- A three-action plan with one safe, one dangerous and one blocked action. -/
def mixedPlan3 : ActionPlan :=
  ⟨"multi_step", some false,
   [⟨"open_app", [("name", .str "notepad")]⟩,
    ⟨"file_delete", [("path", .str "C:/tmp/x.txt")]⟩,
    ⟨"frobnicate", []⟩]⟩

/-- Single well-formed action of the sparse plan object below. -/
def sparseAction1 : JVal :=
  .obj [("type", .str "file_delete"),
        ("parameters", .obj [("path", .str "C:/tmp/x.txt")])]

/-- Parsed plan object lacking `task_type` and `requires_confirmation`. -/
def sparsePlanKvs : KVs :=
  [("actions", .arr [sparseAction1]), ("note", .str "extra key untouched")]

/-- Parsed plan object whose `task_type` is a JSON array — an unhashable
operand for the set-membership test of schema.py line 68. -/
def unhashableTaskTypeKvs : KVs :=
  [("task_type", .arr []), ("actions", .arr [sparseAction1])]

/-- Plan exercising every sanitization branch: a file delete aimed at a
drive root, an install with shell metacharacters, and an over-long
shutdown delay. -/
def dirtyPlan : ActionPlan :=
  ⟨"multi_step", some true,
   [⟨"file_delete", [("path", .str "C:\\")]⟩,
    ⟨"install_software", [("package_id", .str "vlc; rm -rf /")]⟩,
    ⟨"system_shutdown", [("delay", .int 9999)]⟩]⟩

/-- The sanitized form of `dirtyPlan`. -/
def dirtyPlanClean : ActionPlan :=
  ⟨"multi_step", some true,
   [⟨"file_delete", []⟩,
    ⟨"install_software", [("package_id", .str "")]⟩,
    ⟨"system_shutdown", [("delay", .int 3600)]⟩]⟩

/-- Invariant the classification loop maintains: after processing the
actions below index `i`, the three index lists of the verdict hold each
index below `i` exactly once between them, in strictly increasing order. -/
def Validator.partInv (i : Nat) (v : Validator.Verdict) : Prop :=
  (∀ j : Nat,
      v.blocked_actions.count j + v.dangerous_actions.count j +
        v.safe_actions.count j = if j < i then 1 else 0)
  ∧ v.blocked_actions.Pairwise (· < ·)
  ∧ v.dangerous_actions.Pairwise (· < ·)
  ∧ v.safe_actions.Pairwise (· < ·)
  ∧ (∀ j ∈ v.blocked_actions, j < i)
  ∧ (∀ j ∈ v.dangerous_actions, j < i)
  ∧ (∀ j ∈ v.safe_actions, j < i)

theorem lookupKV_setKV_self (kvs : KVs) (k : String) (v : JVal) :
    lookupKV (setKV kvs k v) k = some v := by
  induction kvs with
  | nil => simp [setKV, lookupKV]
  | cons h t ih =>
    obtain ⟨k', v'⟩ := h
    by_cases hk : k' = k
    · simp [setKV, hk, lookupKV]
    · simp [setKV, hk, lookupKV, ih]

theorem lookupKV_setKV_ne (kvs : KVs) (k : String) (v : JVal) (k' : String)
    (h : k' ≠ k) : lookupKV (setKV kvs k v) k' = lookupKV kvs k' := by
  induction kvs with
  | nil => simp [setKV, lookupKV, Ne.symm h]
  | cons hd t ih =>
    obtain ⟨k₀, v₀⟩ := hd
    by_cases hk : k₀ = k
    · subst hk
      simp [setKV, lookupKV, Ne.symm h]
    · simp [setKV, hk, lookupKV, ih]

theorem append_singleton_isEmpty (l : List Nat) (i : Nat) :
    (l ++ [i]).isEmpty = false := by
  cases l <;> rfl

/-- C1.  The claim asserts that execute_plan yields exactly one result per
action index and, on the first failure — including a caught handler
exception — synthesizes a skipped=true result with message "Skipped
(previous action failed)" for every later index.  The code satisfies this
on the ordinary failure path (third conjunct) but not on the exception
path: a raised handler exception is caught and converted to a failure
result, after which the loop breaks without synthesizing anything, so a
two-action plan whose first handler raises yields a single result and
index 1 receives none (first two conjuncts).  This contradicts the
function's own contract ("Returns: List of result dicts for each action",
dispatcher.py lines 107-108). -/
theorem c1_exception_path_truncates_results :
    Dispatcher.execute_plan handlersExn probePlan2 [] =
      [⟨0, "open_app", some false, some "Exception: boom", none⟩]
    ∧ probePlan2.actions.length = 2
    ∧ Dispatcher.execute_plan handlersFail probePlan2 [] =
      [⟨0, "open_app", some false, some "nope", none⟩,
       ⟨1, "wait", some false, some "Skipped (previous action failed)", some true⟩] :=
  ⟨rfl, rfl, rfl⟩

/-- C2.  The claim asserts that the schema check accepts every action type
of the documented vocabulary, which includes sleep, lock, shutdown,
restart, wifi, bluetooth, screensaver, mute and unmute.  It does not: a
plan whose single action is a well-formed `system_shutdown` is rejected
outright (first conjunct), because config.ALL_ACTION_TYPES omits the nine
system_* types even though the dispatcher registers handlers for them and
plan_validator.ALLOWED_ACTIONS lists them (remaining conjuncts) — the
allowed set of config.py is inconsistent with the rest of the code. -/
theorem c2_documented_type_rejected_by_schema :
    (Schema.validate_action_plan shutdownPlanJson).isNone = true
    ∧ PlanValidator.ALLOWED_ACTIONS.contains "system_shutdown" = true
    ∧ Dispatcher.handlerTypes.contains "system_shutdown" = true
    ∧ Config.ALL_ACTION_TYPES.contains "system_shutdown" = false :=
  ⟨rfl, rfl, rfl, rfl⟩

/-- C5.  The claim asserts that the Orchestrator consults the fast-path
matcher before the generator and calls the generator only on no-match.
The fast-path matcher does map "open notepad" to the claimed plan (first
conjunct), but Orchestrator._main_loop obtains its plan by calling the
provider unconditionally — no orchestrator code path invokes
parse_simple_command — so with a failing generator the utterance yields no
plan at all even though the matcher would have produced one (second
conjunct: the provider is invoked and the phase returns no plan). -/
theorem c5_fast_path_never_consulted :
    Rules.parse_simple_command "open notepad" =
      some ⟨"single_step", none, [⟨"open_app", [("name", JVal.str "notepad")]⟩]⟩
    ∧ Orchestrator.plan_phase genNone "open notepad" = (none, true) :=
  ⟨rfl, rfl⟩

/-- C6.  For every session of FallbackProvider.plan calls: each call probes
the primary exactly once; the secondary is invoked exactly once when the
primary returns none and never otherwise; the call returns the primary's
plan when there is one, otherwise the secondary's result (none when both
fail); and the whole behaviour is independent of the consecutive-failure
counter (the right-hand side does not mention `fails`), so the counter
never changes which backend is primary for later calls. -/
theorem c6_fallback_exactly_once {α : Type} (responses : List (Option α × Option α))
    (fails : Nat) :
    (Provider.fallback_session responses fails).1 = responses.map (fun pr =>
      ((match pr.1 with | some r => some r | none => pr.2),
       match pr.1 with
       | some _ => [Provider.ProviderCall.primaryCall]
       | none => [Provider.ProviderCall.primaryCall,
                  Provider.ProviderCall.secondaryCall])) := by
  induction responses generalizing fails with
  | nil => rfl
  | cons h t ih =>
    obtain ⟨p, s⟩ := h
    cases p <;> cases s <;>
      simp [Provider.fallback_session, Provider.fallback_plan, ih]

/-- C4 counterexample.  An action whose `destination` resolves inside the
protected Windows root (its path check is "blocked") is classified
"dangerous", not "blocked", because the earlier-checked `source` parameter
matches a suspicious directory name and the path loop returns on the first
non-safe key.  This refutes the claim that a path-bearing parameter inside
a protected root always yields "blocked". -/
theorem c4_counterexample :
    Validator.classify_action protectedPaths0 mixedPathsAction = some "dangerous"
    ∧ lookupKV mixedPathsAction.parameters "destination" =
        some (JVal.str "C:/Windows/evil.exe")
    ∧ Validator.check_path_safety protectedPaths0 (JVal.str "C:/Windows/evil.exe") =
        "blocked" :=
  ⟨rfl, rfl, rfl⟩

/-- C9 counterexample.  An action carrying a denylisted `javascript:` URL is
classified "dangerous", not "blocked", because its `path` parameter matches
a suspicious directory name and the path checks run first and return early.
This refutes the claim that a denylisted URL always yields "blocked". -/
theorem c9_counterexample :
    Validator.classify_action protectedPaths0 dangerousPathUrlAction = some "dangerous"
    ∧ lookupKV dangerousPathUrlAction.parameters "url" =
        some (JVal.str "javascript:alert(1)")
    ∧ Validator.check_url_safety "javascript:alert(1)" = "blocked" :=
  ⟨rfl, rfl, rfl⟩

theorem sanitize_params_idem (t : String) (ps ps' : KVs)
    (h : PlanValidator.sanitize_action_parameters t ps = some ps') :
    PlanValidator.sanitize_action_parameters t ps' = some ps' := by
  unfold PlanValidator.sanitize_action_parameters at h ⊢
  by_cases h1 : t = "file_delete"
  · rw [if_pos h1] at h ⊢
    dsimp only [] at h ⊢
    split at h
    next hc =>
      injection h with h'
      subst h'
      split <;> rfl
    next hc =>
      injection h with h'
      subst h'
      rw [if_neg hc]
  · rw [if_neg h1] at h ⊢
    by_cases h2 : t = "install_software"
    · rw [if_pos h2] at h ⊢
      cases hpk : lookupKV ps "package_id" with
      | none =>
        rw [hpk] at h
        injection h with h'
        subst h'
        rw [hpk]
      | some v =>
        rw [hpk] at h
        cases v with
        | str s =>
          dsimp only [] at h
          split at h
          next hm =>
            injection h with h'
            subst h'
            rw [lookupKV_setKV_self]
            simp
          next hm =>
            injection h with h'
            subst h'
            rw [hpk]
            dsimp only []
            rw [if_neg hm]
        | null => exact Option.noConfusion h
        | bool b => exact Option.noConfusion h
        | int n => exact Option.noConfusion h
        | arr xs => exact Option.noConfusion h
        | obj kvs2 => exact Option.noConfusion h
    · rw [if_neg h2] at h ⊢
      by_cases h3 : t = "system_shutdown" ∨ t = "system_restart"
      · rw [if_pos h3] at h ⊢
        cases hd : (lookupKV ps "delay").getD (JVal.int 60) with
        | int d =>
          rw [hd] at h
          dsimp only [] at h
          split at h
          next hgt =>
            injection h with h'
            subst h'
            rw [lookupKV_setKV_self, Option.getD_some]
            dsimp only []
            rw [if_neg (by decide : ¬((3600 : Int) > 3600))]
          next hgt =>
            injection h with h'
            subst h'
            rw [hd]
            dsimp only []
            rw [if_neg hgt]
        | bool b =>
          rw [hd] at h
          injection h with h'
          subst h'
          rw [hd]
        | null => rw [hd] at h; exact Option.noConfusion h
        | str s => rw [hd] at h; exact Option.noConfusion h
        | arr xs => rw [hd] at h; exact Option.noConfusion h
        | obj kvs2 => rw [hd] at h; exact Option.noConfusion h
      · rw [if_neg h3] at h ⊢

theorem sanitize_actions_idem (as : List PlanAction) :
    ∀ as', PlanValidator.sanitizeActionsList as = some as' →
      PlanValidator.sanitizeActionsList as' = some as' := by
  induction as with
  | nil =>
    intro as' h
    injection h with h'
    subst h'
    rfl
  | cons a t ih =>
    intro as' h
    unfold PlanValidator.sanitizeActionsList at h
    cases hp : PlanValidator.sanitize_action_parameters a.type a.parameters with
    | none => rw [hp] at h; exact Option.noConfusion h
    | some ps =>
      rw [hp] at h
      cases ht : PlanValidator.sanitizeActionsList t with
      | none => rw [ht] at h; exact Option.noConfusion h
      | some t' =>
        rw [ht] at h
        injection h with h'
        subst h'
        have hp2 := sanitize_params_idem a.type a.parameters ps hp
        have ht2 := ih t' ht
        unfold PlanValidator.sanitizeActionsList
        rw [hp2, ht2]

/-- C8.  Sanitization is idempotent: running PlanValidator.sanitize_plan on
its own output reproduces that output, for every plan (in Kleisli form, so
that inputs on which the Python code raises — where both sides raise alike
— are covered as well): file-delete paths that are empty or a root/drive
designator are stripped to empty parameters, install package identifiers
containing shell metacharacters are blanked, and shutdown/restart delays
are capped at 3600 seconds, and each of these scrubs is stable under a
second pass. -/
theorem c8_sanitize_idempotent (plan : ActionPlan) :
    (PlanValidator.sanitize_plan plan).bind PlanValidator.sanitize_plan =
      PlanValidator.sanitize_plan plan := by
  cases h : PlanValidator.sanitize_plan plan with
  | none => rfl
  | some q =>
    unfold PlanValidator.sanitize_plan at h
    cases hl : PlanValidator.sanitizeActionsList plan.actions with
    | none => rw [hl] at h; exact Option.noConfusion h
    | some as =>
      rw [hl] at h
      injection h with h'
      subst h'
      have h2 := sanitize_actions_idem plan.actions as hl
      simp [Option.bind, PlanValidator.sanitize_plan, h2]

theorem validateLoop_flags (pp : List (List String)) (b : Bool) :
    ∀ (acts : List PlanAction) (i : Nat) (acc v : Validator.Verdict),
      Validator.validateLoop pp acts i acc = some v →
      acc.approved = true →
      acc.needs_confirmation = (b || !acc.dangerous_actions.isEmpty) →
      v.approved = true ∧
        v.needs_confirmation = (b || !v.dangerous_actions.isEmpty) := by
  intro acts
  induction acts with
  | nil =>
    intro i acc v h ha hn
    injection h with h'
    subst h'
    exact ⟨ha, hn⟩
  | cons a rest ih =>
    intro i acc v h ha hn
    unfold Validator.validateLoop at h
    cases hc : Validator.classify_action pp a with
    | none => rw [hc] at h; exact Option.noConfusion h
    | some c =>
      rw [hc] at h
      dsimp only [] at h
      by_cases hb : c = "blocked"
      · rw [if_pos hb] at h
        exact ih (i + 1) _ v h ha hn
      · rw [if_neg hb] at h
        by_cases hd : c = "dangerous"
        · rw [if_pos hd] at h
          refine ih (i + 1) _ v h ha ?_
          show true = (b || !(acc.dangerous_actions ++ [i]).isEmpty)
          rw [append_singleton_isEmpty]
          simp
        · rw [if_neg hd] at h
          exact ih (i + 1) _ v h ha hn

/-- C3.  For every plan on which validate_plan returns a verdict, the
verdict's `approved` flag is true exactly when no action index was blocked,
and `needs_confirmation` equals the plan's own requires_confirmation flag
(defaulted to false) OR the presence of a dangerous index — in particular
it is true whenever a dangerous index exists, regardless of the safe-mode
flag `sm`. -/
theorem c3_verdict_flags (sm : Bool) (pp : List (List String)) (plan : ActionPlan)
    (v : Validator.Verdict) (h : Validator.validate_plan sm pp plan = some v) :
    v.approved = v.blocked_actions.isEmpty
    ∧ v.needs_confirmation =
        (plan.requires_confirmation.getD false || !v.dangerous_actions.isEmpty) := by
  unfold Validator.validate_plan at h
  cases hl : Validator.validateLoop pp plan.actions 0 (Validator.initVerdict plan) with
  | none => rw [hl] at h; exact Option.noConfusion h
  | some r =>
    rw [hl] at h
    dsimp only [] at h
    obtain ⟨hra, hrn⟩ := validateLoop_flags pp (plan.requires_confirmation.getD false)
      plan.actions 0 (Validator.initVerdict plan) r hl rfl
      (by simp [Validator.initVerdict])
    injection h with h'
    subst h'
    by_cases hbe : r.blocked_actions.isEmpty = true
    · rw [if_pos hbe]
      by_cases hsm : (sm && !r.dangerous_actions.isEmpty) = true
      · rw [if_pos hsm]
        simp only [Bool.and_eq_true] at hsm
        refine ⟨by simpa [hbe] using hra, ?_⟩
        show true = _
        rw [show r.dangerous_actions.isEmpty = false by
              simpa using hsm.2]
        simp
      · rw [if_neg hsm]
        exact ⟨by rw [hra, hbe], hrn⟩
    · rw [if_neg hbe]
      have hbe' : r.blocked_actions.isEmpty = false := by
        simpa using hbe
      by_cases hsm : (sm && !r.dangerous_actions.isEmpty) = true
      · rw [if_pos hsm]
        simp only [Bool.and_eq_true] at hsm
        refine ⟨by simpa [hbe'], ?_⟩
        show true = _
        rw [show r.dangerous_actions.isEmpty = false by
              simpa using hsm.2]
        simp
      · rw [if_neg hsm]
        exact ⟨by simpa [hbe'], hrn⟩

/-- C3 witness: a concrete safe single-action plan, its verdict, and the
flag equations at that verdict. -/
theorem c3_verdict_flags_witness :
    Validator.validate_plan true protectedPaths0 safePlan1 =
      some ⟨true, false, [], [], [0], []⟩
    ∧ ((true : Bool) = ([] : List Nat).isEmpty
       ∧ (false : Bool) =
          (safePlan1.requires_confirmation.getD false || !([] : List Nat).isEmpty)) :=
  ⟨rfl, c3_verdict_flags true protectedPaths0 safePlan1 ⟨true, false, [], [], [0], []⟩ rfl⟩

theorem count_singleton_nat (i j : Nat) : [i].count j = if j = i then 1 else 0 := by
  by_cases hj : j = i
  · subst hj
    simp
  · rw [if_neg hj]
    exact List.count_eq_zero.mpr (by simp [hj])

theorem count_extend_first (l : List Nat) (i j : Nat) :
    (l ++ [i]).count j = l.count j + (if j = i then 1 else 0) := by
  rw [List.count_append, count_singleton_nat]

theorem partInv_extend (i : Nat) (l : List Nat) (hp : l.Pairwise (· < ·))
    (hb : ∀ j ∈ l, j < i) :
    (l ++ [i]).Pairwise (· < ·) ∧ (∀ j ∈ l ++ [i], j < i + 1) := by
  constructor
  · exact List.pairwise_append.mpr ⟨hp, List.pairwise_singleton _ _,
      fun x hx y hy => by
        rw [List.mem_singleton] at hy
        subst hy
        exact hb x hx⟩
  · intro j hj
    rcases List.mem_append.mp hj with hj | hj
    · exact Nat.lt_succ_of_lt (hb j hj)
    · rw [List.mem_singleton] at hj
      subst hj
      exact Nat.lt_succ_self _

theorem validateLoop_partition (pp : List (List String)) :
    ∀ (acts : List PlanAction) (i : Nat) (acc v : Validator.Verdict),
      Validator.validateLoop pp acts i acc = some v →
      Validator.partInv i acc → Validator.partInv (i + acts.length) v := by
  intro acts
  induction acts with
  | nil =>
    intro i acc v h hinv
    injection h with h'
    subst h'
    simpa using hinv
  | cons a rest ih =>
    intro i acc v h hinv
    unfold Validator.validateLoop at h
    cases hc : Validator.classify_action pp a with
    | none => rw [hc] at h; exact Option.noConfusion h
    | some c =>
      rw [hc] at h
      dsimp only [] at h
      obtain ⟨hcount, hpb, hpd, hps, hbb, hbd, hbs⟩ := hinv
      have harith : i + (a :: rest).length = (i + 1) + rest.length := by
        simp [List.length_cons]
        omega
      rw [harith]
      by_cases hb : c = "blocked"
      · rw [if_pos hb] at h
        refine ih (i + 1) _ v h ?_
        obtain ⟨hp', hb'⟩ := partInv_extend i acc.blocked_actions hpb hbb
        exact ⟨fun j => by
            have hcj := hcount j
            show (acc.blocked_actions ++ [i]).count j + acc.dangerous_actions.count j +
                acc.safe_actions.count j = if j < i + 1 then 1 else 0
            rw [count_extend_first]
            split_ifs at hcj ⊢ <;> omega,
          hp', hpd, hps, hb',
          fun j hj => Nat.lt_succ_of_lt (hbd j hj),
          fun j hj => Nat.lt_succ_of_lt (hbs j hj)⟩
      · rw [if_neg hb] at h
        by_cases hd : c = "dangerous"
        · rw [if_pos hd] at h
          refine ih (i + 1) _ v h ?_
          obtain ⟨hp', hb'⟩ := partInv_extend i acc.dangerous_actions hpd hbd
          exact ⟨fun j => by
              have hcj := hcount j
              show acc.blocked_actions.count j + (acc.dangerous_actions ++ [i]).count j +
                  acc.safe_actions.count j = if j < i + 1 then 1 else 0
              rw [count_extend_first]
              split_ifs at hcj ⊢ <;> omega,
            hpb, hp', hps,
            fun j hj => Nat.lt_succ_of_lt (hbb j hj),
            hb',
            fun j hj => Nat.lt_succ_of_lt (hbs j hj)⟩
        · rw [if_neg hd] at h
          refine ih (i + 1) _ v h ?_
          obtain ⟨hp', hb'⟩ := partInv_extend i acc.safe_actions hps hbs
          exact ⟨fun j => by
              have hcj := hcount j
              show acc.blocked_actions.count j + acc.dangerous_actions.count j +
                  (acc.safe_actions ++ [i]).count j = if j < i + 1 then 1 else 0
              rw [count_extend_first]
              split_ifs at hcj ⊢ <;> omega,
            hpb, hpd, hp',
            fun j hj => Nat.lt_succ_of_lt (hbb j hj),
            fun j hj => Nat.lt_succ_of_lt (hbd j hj),
            hb'⟩

/-- C10.  For every plan on which validate_plan returns a verdict with `n`
actions, the three index lists of the verdict partition `{0, ..., n-1}` —
every index below `n` occurs exactly once across blocked, dangerous and
safe, and every other index not at all — and each of the three lists is
strictly increasing. -/
theorem c10_partition (sm : Bool) (pp : List (List String)) (plan : ActionPlan)
    (v : Validator.Verdict) (h : Validator.validate_plan sm pp plan = some v) :
    (∀ j : Nat, v.blocked_actions.count j + v.dangerous_actions.count j +
        v.safe_actions.count j = if j < plan.actions.length then 1 else 0)
    ∧ v.blocked_actions.Pairwise (· < ·)
    ∧ v.dangerous_actions.Pairwise (· < ·)
    ∧ v.safe_actions.Pairwise (· < ·) := by
  unfold Validator.validate_plan at h
  cases hl : Validator.validateLoop pp plan.actions 0 (Validator.initVerdict plan) with
  | none => rw [hl] at h; exact Option.noConfusion h
  | some r =>
    rw [hl] at h
    dsimp only [] at h
    have hinv0 : Validator.partInv 0 (Validator.initVerdict plan) := by
      refine ⟨fun j => by simp [Validator.initVerdict], ?_, ?_, ?_, ?_, ?_, ?_⟩ <;>
        simp [Validator.initVerdict]
    have hr := validateLoop_partition pp plan.actions 0 _ r hl hinv0
    rw [Nat.zero_add] at hr
    obtain ⟨hcount, hpb, hpd, hps, _, _, _⟩ := hr
    injection h with h'
    have hb : v.blocked_actions = r.blocked_actions := by
      rw [← h']
      split_ifs <;> rfl
    have hd : v.dangerous_actions = r.dangerous_actions := by
      rw [← h']
      split_ifs <;> rfl
    have hs : v.safe_actions = r.safe_actions := by
      rw [← h']
      split_ifs <;> rfl
    refine ⟨fun j => by rw [hb, hd, hs]; exact hcount j, ?_, ?_, ?_⟩
    · rw [hb]
      exact hpb
    · rw [hd]
      exact hpd
    · rw [hs]
      exact hps

/-- C10 witness: a three-action plan with one safe, one dangerous and one
blocked action, its concrete verdict, and the partition property at it. -/
theorem c10_partition_witness :
    Validator.validate_plan true protectedPaths0 mixedPlan3 =
      some ⟨false, true, [2], [1], [0],
        ["Action 2 (file_delete) requires confirmation",
         "Action 3 (frobnicate) is BLOCKED: violates safety policy"]⟩
    ∧ ((∀ j : Nat, ([2] : List Nat).count j + ([1] : List Nat).count j +
          ([0] : List Nat).count j = if j < mixedPlan3.actions.length then 1 else 0)
       ∧ ([2] : List Nat).Pairwise (· < ·)
       ∧ ([1] : List Nat).Pairwise (· < ·)
       ∧ ([0] : List Nat).Pairwise (· < ·)) :=
  ⟨rfl, c10_partition true protectedPaths0 mixedPlan3
    ⟨false, true, [2], [1], [0],
     ["Action 2 (file_delete) requires confirmation",
      "Action 3 (frobnicate) is BLOCKED: violates safety policy"]⟩ rfl⟩

theorem bool_not_true_of_not (b : Bool) (h : ¬ b = true) : (!b) = true := by
  cases b
  · rfl
  · exact absurd rfl h

theorem bool_not_not_true_of (b : Bool) (h : b = true) : ¬ (!b) = true := by
  rw [h]
  simp

theorem pathLoop_no_dangerous (pp : List (List String)) (params : KVs) :
    ∀ ks : List String,
      (ks.all fun k =>
        match lookupKV params k with
        | some v => !(Validator.check_path_safety pp v == "dangerous")
        | none => true) = true →
      Validator.pathParamsVerdict pp params ks = none ∨
        Validator.pathParamsVerdict pp params ks = some "blocked" := by
  intro ks
  induction ks with
  | nil => intro _; exact Or.inl rfl
  | cons k t ih =>
    intro hall
    rw [List.all_cons, Bool.and_eq_true] at hall
    obtain ⟨hk, ht⟩ := hall
    unfold Validator.pathParamsVerdict
    cases hlk : lookupKV params k with
    | none => exact ih ht
    | some v =>
      rw [hlk] at hk
      dsimp only []
      by_cases hb : Validator.check_path_safety pp v = "blocked"
      · rw [if_pos hb]
        exact Or.inr rfl
      · rw [if_neg hb]
        have hd : ¬ Validator.check_path_safety pp v = "dangerous" := by
          simpa using hk
        rw [if_neg hd]
        exact ih ht

theorem pathLoop_blocked (pp : List (List String)) (params : KVs) :
    ∀ ks : List String,
      (ks.any fun k =>
        match lookupKV params k with
        | some v => Validator.check_path_safety pp v == "blocked"
        | none => false) = true →
      (ks.all fun k =>
        match lookupKV params k with
        | some v => !(Validator.check_path_safety pp v == "dangerous")
        | none => true) = true →
      Validator.pathParamsVerdict pp params ks = some "blocked" := by
  intro ks
  induction ks with
  | nil => intro hany _; exact absurd hany (by simp)
  | cons k t ih =>
    intro hany hall
    rw [List.any_cons, Bool.or_eq_true] at hany
    rw [List.all_cons, Bool.and_eq_true] at hall
    obtain ⟨hk, ht⟩ := hall
    unfold Validator.pathParamsVerdict
    cases hlk : lookupKV params k with
    | none =>
      rcases hany with hany | hany
      · rw [hlk] at hany
        exact absurd hany (by simp)
      · exact ih hany ht
    | some v =>
      rw [hlk] at hk
      dsimp only []
      by_cases hb : Validator.check_path_safety pp v = "blocked"
      · rw [if_pos hb]
      · rw [if_neg hb]
        have hd : ¬ Validator.check_path_safety pp v = "dangerous" := by
          simpa using hk
        rw [if_neg hd]
        rcases hany with hany | hany
        · rw [hlk] at hany
          exact absurd (by simpa using hany) hb
        · exact ih hany ht

theorem in_protected_any_blocked (pp : List (List String)) (params : KVs) :
    ∀ ks : List String,
      (ks.any fun k =>
        match lookupKV params k with
        | some (JVal.str s) =>
          pp.any fun pr => pr.isPrefixOf (Validator.resolveParts (Validator.pathParts s))
        | _ => false) = true →
      (ks.any fun k =>
        match lookupKV params k with
        | some v => Validator.check_path_safety pp v == "blocked"
        | none => false) = true := by
  intro ks
  induction ks with
  | nil => intro hany; exact absurd hany (by simp)
  | cons k t ih =>
    intro hany
    rw [List.any_cons, Bool.or_eq_true] at hany
    rw [List.any_cons, Bool.or_eq_true]
    rcases hany with hany | hany
    · left
      cases hlk : lookupKV params k with
      | none => rw [hlk] at hany; exact absurd hany (by simp)
      | some v =>
        rw [hlk] at hany
        cases v with
        | str s =>
          dsimp only [] at hany ⊢
          have hb : Validator.check_path_safety pp (JVal.str s) = "blocked" := by
            unfold Validator.check_path_safety
            dsimp only []
            rw [if_pos hany]
          rw [hb]
          rfl
        | null => simp at hany
        | bool b => simp at hany
        | int n => simp at hany
        | arr xs => simp at hany
        | obj kvs => simp at hany
    · right
      exact ih hany

/-- C4 (amended).  An action carrying a path-bearing parameter (path,
source or destination) whose canonical resolved components lie inside a
configured protected root is classified "blocked" independently of the
action's type, provided no path-bearing parameter of the action classifies
as "dangerous" (the path loop checks the keys in a fixed order and returns
"dangerous" as soon as one such key is met); containment is decided by
component-prefix comparison of the resolved path, not by substring match. -/
theorem c4_protected_path_blocked (pp : List (List String)) (a : PlanAction)
    (h1 : Validator.path_param_in_protected_root pp a.parameters = true)
    (h2 : Validator.no_dangerous_path_param pp a.parameters = true) :
    Validator.classify_action pp a = some "blocked" := by
  unfold Validator.classify_action
  by_cases hty : (Config.ALL_ACTION_TYPES.contains a.type) = true
  · rw [if_neg (bool_not_not_true_of _ hty)]
    unfold Validator.path_param_in_protected_root at h1
    unfold Validator.no_dangerous_path_param at h2
    have hblocked := pathLoop_blocked pp a.parameters Validator.path_keys
      (in_protected_any_blocked pp a.parameters Validator.path_keys h1) h2
    rw [hblocked]
  · rw [if_pos (bool_not_true_of_not _ hty)]

/-- C4 witness: a file-delete aimed inside the protected project root is
blocked, and a path merely containing a protected root as a substring of
its text (but not as a component prefix) is not. -/
theorem c4_protected_path_blocked_witness :
    Validator.path_param_in_protected_root protectedPaths0
        protectedPathAction.parameters = true
    ∧ Validator.no_dangerous_path_param protectedPaths0
        protectedPathAction.parameters = true
    ∧ Validator.classify_action protectedPaths0 protectedPathAction = some "blocked"
    ∧ Validator.check_path_safety [["C:", "Windows"]]
        (JVal.str "C:/WindowsOld/f") = "safe" :=
  ⟨rfl, rfl,
   c4_protected_path_blocked protectedPaths0 protectedPathAction rfl rfl, rfl⟩

/-- C9 (amended).  For an action carrying a string `url` parameter, when the
URL check yields "blocked" — its scheme is neither http nor https, or the
lower-cased URL matches a denylisted prefix pattern (javascript:, data:,
file:///) — classify_action returns "blocked", provided no path-bearing
parameter of the action classifies as "dangerous" (path checks run first
and return early).  A bare scheme-less URL string is treated as safe by the
checker and upgraded to https by the browser navigation handler (see the
witness). -/
theorem c9_url_scheme_blocking (pp : List (List String)) (a : PlanAction) (u : String)
    (h1 : lookupKV a.parameters "url" = some (JVal.str u))
    (h2 : Validator.no_dangerous_path_param pp a.parameters = true)
    (h3 : Validator.check_url_safety u = "blocked") :
    Validator.classify_action pp a = some "blocked" := by
  unfold Validator.classify_action
  by_cases hty : (Config.ALL_ACTION_TYPES.contains a.type) = true
  · rw [if_neg (bool_not_not_true_of _ hty)]
    unfold Validator.no_dangerous_path_param at h2
    rcases pathLoop_no_dangerous pp a.parameters Validator.path_keys h2 with hn | hn
    · rw [hn]
      dsimp only []
      rw [h1]
      dsimp only []
      rw [if_pos h3]
    · rw [hn]
  · rw [if_pos (bool_not_true_of_not _ hty)]

/-- C9 witness: a disallowed-scheme URL is blocked through classify_action;
a scheme-less URL is safe for the checker and upgraded to https by the
navigate handler. -/
theorem c9_url_scheme_blocking_witness :
    lookupKV ftpUrlAction.parameters "url" = some (JVal.str "ftp://host/file")
    ∧ Validator.no_dangerous_path_param protectedPaths0 ftpUrlAction.parameters = true
    ∧ Validator.check_url_safety "ftp://host/file" = "blocked"
    ∧ Validator.classify_action protectedPaths0 ftpUrlAction = some "blocked"
    ∧ Validator.check_url_safety "www.google.com/search" = "safe"
    ∧ Browser.navigate_target_url "www.google.com/search" =
        some "https://www.google.com/search" :=
  ⟨rfl, rfl, rfl,
   c9_url_scheme_blocking protectedPaths0 ftpUrlAction "ftp://host/file" rfl rfl rfl,
   rfl, rfl⟩

theorem isValid_count_str (c : Prop) [Decidable c] :
    Schema.isValidTaskTypeVal
      (JVal.str (if c then "multi_step" else "single_step")) = some true := by
  by_cases hc : c
  · rw [if_pos hc]
    rfl
  · rw [if_neg hc]
    rfl

theorem fixAction_ok (a : JVal) (h : Schema.actionOK a = true) :
    ∃ a', Schema.fixAction a = some a'
      ∧ Schema.actionTypeDangerous a' = Schema.actionTypeDangerous a
      ∧ Schema.paramsPresentB a' = true := by
  cases a with
  | null => simp [Schema.actionOK] at h
  | bool b => simp [Schema.actionOK] at h
  | int n => simp [Schema.actionOK] at h
  | str s => simp [Schema.actionOK] at h
  | arr xs => simp [Schema.actionOK] at h
  | obj akvs =>
    unfold Schema.actionOK at h
    rw [Bool.and_eq_true] at h
    obtain ⟨hty, hpar⟩ := h
    unfold Schema.fixAction
    dsimp only []
    cases hl : lookupKV akvs "type" with
    | none => rw [hl] at hty; exact absurd hty (by simp)
    | some tv =>
      rw [hl] at hty
      dsimp only [] at hty
      dsimp only []
      rw [if_neg (bool_not_not_true_of _ hty)]
      cases hp : lookupKV akvs "parameters" with
      | none =>
        refine ⟨_, rfl, ?_, ?_⟩
        · unfold Schema.actionTypeDangerous
          dsimp only []
          rw [lookupKV_setKV_ne _ _ _ _ (by decide)]
        · unfold Schema.paramsPresentB
          dsimp only []
          rw [lookupKV_setKV_self]
          rfl
      | some pv =>
        rw [hp] at hpar
        cases pv with
        | obj pkvs =>
          refine ⟨_, rfl, rfl, ?_⟩
          unfold Schema.paramsPresentB
          dsimp only []
          rw [hp]
          rfl
        | null => simp at hpar
        | bool b => simp at hpar
        | int n => simp at hpar
        | str s => simp at hpar
        | arr xs => simp at hpar

theorem fixActions_ok (as : List JVal) (h : as.all Schema.actionOK = true) :
    ∃ as', Schema.fixActions as = some as'
      ∧ as'.any Schema.actionTypeDangerous = as.any Schema.actionTypeDangerous
      ∧ (∀ x ∈ as', Schema.paramsPresentB x = true) := by
  induction as with
  | nil =>
    refine ⟨[], rfl, rfl, ?_⟩
    intro x hx
    exact absurd hx (List.not_mem_nil x)
  | cons a t ih =>
    rw [List.all_cons, Bool.and_eq_true] at h
    obtain ⟨ha, ht⟩ := h
    obtain ⟨a', hfa, hdan, hpar⟩ := fixAction_ok a ha
    obtain ⟨t', hft, hdant, hpart⟩ := ih ht
    refine ⟨a' :: t', ?_, ?_, ?_⟩
    · unfold Schema.fixActions
      rw [hfa, hft]
    · rw [List.any_cons, List.any_cons, hdan, hdant]
    · intro x hx
      rcases List.mem_cons.mp hx with hx | hx
      · subst hx
        exact hpar
      · exact hpart x hx

theorem vap_tail_result (kvs2 : KVs) (as : List JVal)
    (h1 : lookupKV kvs2 "actions" = some (JVal.arr as))
    (hne : as.isEmpty = false)
    (hok : as.all Schema.actionOK = true) :
    ∃ kvs', Schema.vap_tail kvs2 = some (JVal.obj kvs')
      ∧ lookupKV kvs' "task_type" = lookupKV kvs2 "task_type"
      ∧ (lookupKV kvs2 "requires_confirmation" = none →
          lookupKV kvs' "requires_confirmation" =
            some (JVal.bool (as.any Schema.actionTypeDangerous)))
      ∧ (∀ tl, lookupKV kvs' "actions" = some (JVal.arr tl) →
          ∀ x ∈ tl, Schema.paramsPresentB x = true) := by
  obtain ⟨as', hfix, hdan, hpar⟩ := fixActions_ok as hok
  unfold Schema.vap_tail
  rw [h1]
  dsimp only []
  rw [if_neg (by simp [hne])]
  rw [hfix]
  dsimp only []
  set kvs3 := setKV kvs2 "actions" (JVal.arr as') with hkvs3
  unfold Schema.vap_default_confirmation
  cases hrc : lookupKV kvs3 "requires_confirmation" with
  | some w =>
    refine ⟨kvs3, rfl, ?_, ?_, ?_⟩
    · rw [hkvs3, lookupKV_setKV_ne _ _ _ _ (by decide)]
    · intro hnone
      rw [hkvs3, lookupKV_setKV_ne _ _ _ _ (by decide), hnone] at hrc
      exact Option.noConfusion hrc
    · intro tl htl x hx
      rw [hkvs3, lookupKV_setKV_self] at htl
      injection htl with htl'
      injection htl' with htl''
      subst htl''
      exact hpar x hx
  | none =>
    refine ⟨setKV kvs3 "requires_confirmation"
        (JVal.bool (as'.any Schema.actionTypeDangerous)), rfl, ?_, ?_, ?_⟩
    · rw [lookupKV_setKV_ne _ _ _ _ (by decide), hkvs3,
        lookupKV_setKV_ne _ _ _ _ (by decide)]
    · intro _
      rw [lookupKV_setKV_self, hdan]
    · intro tl htl x hx
      rw [lookupKV_setKV_ne _ _ _ _ (by decide), hkvs3, lookupKV_setKV_self] at htl
      injection htl with htl'
      injection htl' with htl''
      subst htl''
      exact hpar x hx

/-- C7 counterexample.  A plan whose `task_type` is a JSON array — a value
that is "not one of single_step/multi_step/clarify" — is not auto-repaired:
the set-membership test of schema.py line 68 raises TypeError on the
unhashable operand (`isValidTaskTypeVal` is `none`), and validate
ends without producing any validated plan, refuting the claim that such a
plan has its task type auto-assigned from the action count and is not
rejected for that reason. -/
theorem c7_counterexample :
    lookupKV unhashableTaskTypeKvs "actions" = some (JVal.arr [sparseAction1])
    ∧ Schema.isValidTaskTypeVal (JVal.arr []) = none
    ∧ Schema.vap_correct_task_type unhashableTaskTypeKvs = none
    ∧ Schema.validate_action_plan (JVal.obj unhashableTaskTypeKvs) = none :=
  ⟨rfl, rfl, rfl, rfl⟩

/-- C7 (amended).  For every parsed plan object whose `actions` field is a
non-empty list of valid actions, if `task_type` is missing, or present as a
hashable JSON value (string, number, boolean or null) that is not one of
single_step/multi_step/clarify, then validate_action_plan succeeds (the
plan is not rejected for that reason) and auto-assigns the task type from
the action count — more than one action yields multi_step, one yields
single_step; an unhashable `task_type` (a JSON array or object) is instead
never repaired: the set-membership test of schema.py line 68 raises
TypeError and no validated plan results (see the counterexample).  A
missing `requires_confirmation` is defaulted to whether any action's type
is in the dangerous-action set; and every action of the returned plan
carries a `parameters` key (a missing one was defaulted to the empty
mapping). -/
theorem c7_schema_auto_repair (kvs : KVs) (as : List JVal)
    (hact : lookupKV kvs "actions" = some (JVal.arr as))
    (hne : as.isEmpty = false)
    (hok : as.all Schema.actionOK = true)
    (htt : Schema.taskTypeMissingOrInvalid kvs = true) :
    ∃ kvs', Schema.validate_action_plan (JVal.obj kvs) = some (JVal.obj kvs')
      ∧ lookupKV kvs' "task_type" =
          some (JVal.str (if as.length > 1 then "multi_step" else "single_step"))
      ∧ (lookupKV kvs "requires_confirmation" = none →
          lookupKV kvs' "requires_confirmation" =
            some (JVal.bool (as.any Schema.actionTypeDangerous)))
      ∧ (∀ tl, lookupKV kvs' "actions" = some (JVal.arr tl) →
          ∀ x ∈ tl, Schema.paramsPresentB x = true) := by
  unfold Schema.validate_action_plan
  dsimp only []
  unfold Schema.taskTypeMissingOrInvalid at htt
  cases hl : lookupKV kvs "task_type" with
  | none =>
    have hfill : Schema.vap_fill_task_type kvs =
        some (setKV kvs "task_type"
          (JVal.str (if as.length > 1 then "multi_step" else "single_step"))) := by
      unfold Schema.vap_fill_task_type
      rw [hl, hact]
    rw [hfill]
    dsimp only []
    set kvs1 := setKV kvs "task_type"
      (JVal.str (if as.length > 1 then "multi_step" else "single_step")) with hkvs1
    have hact1 : lookupKV kvs1 "actions" = some (JVal.arr as) := by
      rw [hkvs1, lookupKV_setKV_ne _ _ _ _ (by decide)]
      exact hact
    rw [hact1]
    dsimp only []
    have hcorrect : Schema.vap_correct_task_type kvs1 = some kvs1 := by
      unfold Schema.vap_correct_task_type
      rw [hkvs1, lookupKV_setKV_self]
      dsimp only []
      rw [isValid_count_str _]
    rw [hcorrect]
    dsimp only []
    obtain ⟨kvs', hres, htt', hrc', hpl⟩ := vap_tail_result kvs1 as hact1 hne hok
    refine ⟨kvs', hres, ?_, ?_, hpl⟩
    · rw [htt', hkvs1, lookupKV_setKV_self]
    · intro hnone
      apply hrc'
      rw [hkvs1, lookupKV_setKV_ne _ _ _ _ (by decide)]
      exact hnone
  | some v =>
    rw [hl] at htt
    dsimp only [] at htt
    cases hiv : Schema.isValidTaskTypeVal v with
    | none =>
      rw [hiv] at htt
      exact absurd htt (by simp)
    | some b =>
    rw [hiv] at htt
    have hb : b = false := by
      simpa using htt
    subst hb
    have hfill : Schema.vap_fill_task_type kvs = some kvs := by
      unfold Schema.vap_fill_task_type
      rw [hl]
    rw [hfill]
    dsimp only []
    rw [hact]
    dsimp only []
    have hnum : Schema.vap_num_actions kvs = as.length := by
      unfold Schema.vap_num_actions
      rw [hact]
    have hcorrect : Schema.vap_correct_task_type kvs =
        some (setKV kvs "task_type"
          (JVal.str (if as.length > 1 then "multi_step" else "single_step"))) := by
      unfold Schema.vap_correct_task_type
      rw [hl]
      dsimp only []
      rw [hiv]
      dsimp only []
      rw [hnum]
    rw [hcorrect]
    dsimp only []
    set kvs2 := setKV kvs "task_type"
      (JVal.str (if as.length > 1 then "multi_step" else "single_step")) with hkvs2
    have hact2 : lookupKV kvs2 "actions" = some (JVal.arr as) := by
      rw [hkvs2, lookupKV_setKV_ne _ _ _ _ (by decide)]
      exact hact
    obtain ⟨kvs', hres, htt', hrc', hpl⟩ := vap_tail_result kvs2 as hact2 hne hok
    refine ⟨kvs', hres, ?_, ?_, hpl⟩
    · rw [htt', hkvs2, lookupKV_setKV_self]
    · intro hnone
      apply hrc'
      rw [hkvs2, lookupKV_setKV_ne _ _ _ _ (by decide)]
      exact hnone

/-- C7 witness: a parsed plan object missing `task_type` and
`requires_confirmation`, with one valid dangerous action, is repaired to a
single_step plan with requires_confirmation defaulted to true and every
action carrying parameters. -/
theorem c7_schema_auto_repair_witness :
    lookupKV sparsePlanKvs "actions" = some (JVal.arr [sparseAction1])
    ∧ ([sparseAction1] : List JVal).isEmpty = false
    ∧ ([sparseAction1] : List JVal).all Schema.actionOK = true
    ∧ Schema.taskTypeMissingOrInvalid sparsePlanKvs = true
    ∧ ∃ kvs', Schema.validate_action_plan (JVal.obj sparsePlanKvs) =
          some (JVal.obj kvs')
        ∧ lookupKV kvs' "task_type" =
            some (JVal.str
              (if ([sparseAction1] : List JVal).length > 1 then "multi_step"
               else "single_step"))
        ∧ (lookupKV sparsePlanKvs "requires_confirmation" = none →
            lookupKV kvs' "requires_confirmation" =
              some (JVal.bool (([sparseAction1] : List JVal).any
                Schema.actionTypeDangerous)))
        ∧ (∀ tl, lookupKV kvs' "actions" = some (JVal.arr tl) →
            ∀ x ∈ tl, Schema.paramsPresentB x = true) :=
  ⟨rfl, rfl, rfl, rfl,
   c7_schema_auto_repair sparsePlanKvs [sparseAction1] rfl rfl rfl rfl⟩
